import Mathlib

/-!
Verification development for the heuristic flight-offer analysis engine of the
Travel-Cost-Estimator backend (`backend/src/agentic_agents/crew_coordinator.py`).

The Python code is shallowly embedded: Python floats are modelled as exact
rationals (`ℚ`), dicts with known shapes become structures, `None`/missing keys
become `Option`, raised exceptions become `Option`/`Except` failure values, and
the external collaborators (flight search, live FX lookup, LLM explanation) are
passed in as function parameters.  Python string primitives that the code relies
on (`str.upper`, `str.split`, `str.replace`, `int(...)`, lexicographic `<`) are
re-implemented as structurally recursive functions over the character list of a
`String`, so that every definition evaluates inside the kernel.
-/

namespace TravelCost

/-! ## Python string primitives (structural re-implementations) -/

/-- Python `str.upper` for the ASCII strings this code handles. -/
def pyUpper (s : String) : String := ⟨s.data.map Char.toUpper⟩

/-- Split a character list at every occurrence of the separator character,
mirroring Python `str.split(sep)` for a one-character separator. -/
def charsSplitOn (sep : Char) : List Char → List (List Char)
  | [] => [[]]
  | c :: rest =>
    let r := charsSplitOn sep rest
    if c = sep then [] :: r
    else
      match r with
      | [] => [[c]]
      | h :: t => (c :: h) :: t

/-- Python `s.split(sep)` for a one-character separator. -/
def strSplitOn (sep : Char) (s : String) : List String :=
  (charsSplitOn sep s.data).map String.mk

/-- Remove every (non-overlapping, left-to-right) occurrence of `"PT"`,
mirroring `iso.replace("PT", "")`. -/
def stripPT : List Char → List Char
  | 'P' :: 'T' :: rest => stripPT rest
  | c :: rest => c :: stripPT rest
  | [] => []

/-- Python `s.startswith("PT")`. -/
def startsWithPT : List Char → Bool
  | 'P' :: 'T' :: _ => true
  | _ => false

/-- Python `"H" in s` (membership of a single character). -/
def charIn (c : Char) (l : List Char) : Bool := l.contains c

/-- Value of a non-empty all-digit character list, `none` otherwise. -/
def digitsVal (l : List Char) : Option Nat :=
  if l.isEmpty then none
  else
    l.foldl
      (fun acc c =>
        match acc with
        | none => none
        | some n => if c.isDigit then some (n * 10 + (c.toNat - '0'.toNat)) else none)
      (some 0)

/-- Python `int(s)` on a string: optional sign followed by digits, exception
(`none`) otherwise.  (Surrounding whitespace never occurs in this code's
inputs and is not modelled.) -/
def pyInt (s : String) : Option Int :=
  match s.data with
  | '-' :: rest => (digitsVal rest).map (fun n => -(n : Int))
  | '+' :: rest => (digitsVal rest).map (fun n => (n : Int))
  | l => (digitsVal l).map (fun n => (n : Int))

/-- Lexicographic-by-code-point strict order on character lists, mirroring
Python string `<`. -/
def charsLt : List Char → List Char → Bool
  | [], [] => false
  | [], _ :: _ => true
  | _ :: _, [] => false
  | a :: as, b :: bs =>
    if a.toNat < b.toNat then true
    else if b.toNat < a.toNat then false
    else charsLt as bs

/-- Python string `<`. -/
def pyStrLt (a b : String) : Bool := charsLt a.data b.data

/-- Python truthiness of an optional string (`None` and `""` are falsy). -/
def truthyS : Option String → Bool
  | some s => s ≠ ""
  | none => false

/-- Python `a or b` where `a` is an optional string and `b` a string:
returns `a` when truthy, else `b`. -/
def pyOrStr (a : Option String) (b : String) : String :=
  match a with
  | some s => if s = "" then b else s
  | none => b

/-- Python `a or b` on two optional strings (used for carrier codes). -/
def pyOrOpt (a b : Option String) : Option String :=
  match a with
  | some s => if s = "" then b else some s
  | none => b

/-! ## Numeric helpers -/

/-- Python `int(x)` on a float: truncation toward zero. -/
def pyTrunc (q : ℚ) : ℤ := Int.tdiv q.num (q.den : ℤ)

/-- Round to the nearest integer, ties to even — the rounding used by Python's
`round` builtin.  Computed on the numerator and denominator directly:
with `f = ⌊q⌋`, the fractional part `q - f` compares to `1/2` exactly as
`2 * (q.num - f * q.den)` compares to `q.den`. -/
def roundHalfEven (q : ℚ) : ℤ :=
  let f := q.num.fdiv (q.den : ℤ)
  let r2 := 2 * (q.num - f * (q.den : ℤ))
  if r2 < (q.den : ℤ) then f
  else if (q.den : ℤ) < r2 then f + 1
  else if f % 2 = 0 then f else f + 1

/-- Python `round(x, 2)`. -/
def round2 (q : ℚ) : ℚ := mkRat (roundHalfEven (q * 100)) 100

/-- The digit character for `n < 10`. -/
def digitChar (n : Nat) : Char := Char.ofNat ('0'.toNat + n)

/-- Two-digit zero-padded rendering (for months, days, cents). -/
def pad2 (n : Nat) : String := ⟨[digitChar (n / 10 % 10), digitChar (n % 10)]⟩

/-- Four-digit zero-padded rendering (for years). -/
def pad4 (n : Nat) : String :=
  ⟨[digitChar (n / 1000 % 10), digitChar (n / 100 % 10),
    digitChar (n / 10 % 10), digitChar (n % 10)]⟩

/-- Decimal digits of `n` (fuel-based so that it evaluates in the kernel;
the fuel bounds the number of digits, far beyond anything this code prints). -/
def natDigitsAux : Nat → Nat → List Char
  | 0, _ => []
  | _ + 1, 0 => []
  | fuel + 1, n => natDigitsAux fuel (n / 10) ++ [digitChar (n % 10)]

/-- Decimal rendering of a natural number. -/
def natToStr (n : Nat) : String :=
  if n = 0 then "0" else ⟨natDigitsAux 30 n⟩

/-- Decimal rendering of an integer. -/
def intToStr (i : ℤ) : String :=
  if i < 0 then "-" ++ natToStr i.natAbs else natToStr i.natAbs

/-- Python `f"{x:.2f}"` formatting of a float, modelled on exact rationals. -/
def formatQ2 (q : ℚ) : String :=
  let r := roundHalfEven (q * 100)
  (if r < 0 then "-" else "") ++ natToStr (r.natAbs / 100) ++ "." ++ pad2 (r.natAbs % 100)

/-- Python `str(b)` for booleans, as interpolated by f-strings. -/
def pyBoolStr (b : Bool) : String := if b then "True" else "False"

/-! ## Calendar dates (`datetime.date`) -/

/-- A Gregorian calendar date, as held by `datetime.date`. -/
structure PyDate where
  year : Nat
  month : Nat
  day : Nat
deriving DecidableEq

/-- Gregorian leap-year rule. -/
def isLeap (y : Nat) : Bool := y % 4 = 0 && (y % 100 ≠ 0 || y % 400 = 0)

/-- Number of days in a month. -/
def daysInMonth (y m : Nat) : Nat :=
  if m = 2 then (if isLeap y then 29 else 28)
  else if m = 4 || m = 6 || m = 9 || m = 11 then 30
  else 31

/-- The day after `d`. -/
def PyDate.next (d : PyDate) : PyDate :=
  if d.day < daysInMonth d.year d.month then { d with day := d.day + 1 }
  else if d.month < 12 then { year := d.year, month := d.month + 1, day := 1 }
  else { year := d.year + 1, month := 1, day := 1 }

/-- The day before `d`. -/
def PyDate.prev (d : PyDate) : PyDate :=
  if 1 < d.day then { d with day := d.day - 1 }
  else if 1 < d.month then
    { year := d.year, month := d.month - 1, day := daysInMonth d.year (d.month - 1) }
  else { year := d.year - 1, month := 12, day := 31 }

/-- `d + datetime.timedelta(days=k)`. -/
def PyDate.addDays (d : PyDate) (k : ℤ) : PyDate :=
  if 0 ≤ k then PyDate.next^[k.toNat] d else PyDate.prev^[(-k).toNat] d

/-- Python `datetime.date.fromisoformat` on the canonical `"YYYY-MM-DD"` form
(the only form this code ever passes); `none` models the raised `ValueError`. -/
def PyDate.fromisoformat (s : String) : Option PyDate :=
  match charsSplitOn '-' s.data with
  | [ys, ms, ds] =>
    if ys.length = 4 && ms.length = 2 && ds.length = 2 then
      match digitsVal ys, digitsVal ms, digitsVal ds with
      | some y, some m, some d =>
        if 1 ≤ y && 1 ≤ m && m ≤ 12 && 1 ≤ d && d ≤ daysInMonth y m then
          some ⟨y, m, d⟩
        else none
      | _, _, _ => none
    else none
  | _ => none

/-- Python `date.isoformat()`. -/
def PyDate.isoformat (d : PyDate) : String :=
  pad4 d.year ++ "-" ++ pad2 d.month ++ "-" ++ pad2 d.day

/-! ## Data model

Raw offers mirror the Amadeus response shape the coordinator reads.
A timestamp string is modelled by the raw string (used for the string
comparisons in `build_highlights`) together with the outcome of
`datetime.datetime.fromisoformat` on it: `parsed = none` covers both a
missing/empty value and an unparseable one, which the Python code treats
identically (the parse failure is swallowed by a `try`/`except` at each
use site).  A parsed timestamp is reduced to the two observations the code
makes of it: its absolute position in minutes (rational, since Python
divides `total_seconds()` by 60.0) and its hour-of-day field. -/

/-- The observations the coordinator makes of a parsed `datetime`. -/
structure PyDateTime where
  minutes : ℚ
  hour : Nat
deriving DecidableEq

/-- An ISO-8601 timestamp string and its parse outcome. -/
structure TS where
  raw : String
  parsed : Option PyDateTime
deriving DecidableEq

/-- The parsed value of an optional timestamp field, `none` when the field is
missing, empty (falsy) or unparseable — the three cases every check skips. -/
def tsParsed : Option TS → Option PyDateTime
  | some t => if t.raw = "" then none else t.parsed
  | none => none

/-- One flight segment (`segments[i]` of an itinerary). -/
structure Segment where
  numberOfStops : ℤ
  departure_at : Option TS
  arrival_at : Option TS
  operatingCarrierCode : Option String
  carrierCode : Option String
  duration : Option String
deriving DecidableEq

/-- One itinerary: `itin.get("segments", []) or []` is modelled by the list
itself (missing/`None` become `[]`). -/
structure Itinerary where
  segments : List Segment
deriving DecidableEq

/-- A price string (`price.total` / `price.grandTotal`), modelled by its
`float(...)` parse outcome: `emptyStr` is the falsy `""`, `malformed` a
string on which `float` raises, `parsed q` a string denoting `q`. -/
inductive PStr where
  | emptyStr : PStr
  | malformed : PStr
  | parsed : ℚ → PStr
deriving DecidableEq

/-- Python truthiness of a price string. -/
def truthyP : PStr → Bool
  | .emptyStr => false
  | _ => true

/-- Python `a or b` on two optional price strings. -/
def firstTruthyP (a b : Option PStr) : Option PStr :=
  match a with
  | some x => if truthyP x then some x else (match b with
      | some y => if truthyP y then some y else none
      | none => none)
  | none =>
    match b with
    | some y => if truthyP y then some y else none
    | none => none

/-- The `price` object of an offer. -/
structure PriceObj where
  total : Option PStr
  grandTotal : Option PStr
  currency : Option String
deriving DecidableEq

/-- `float(price.get("total") or price.get("grandTotal") or 0.0)`:
when both fields are falsy the fallback is the float `0.0`; `float` raises
(`Except.error`) on a malformed string. -/
def floatOfTotal : Option PStr → Except Unit ℚ
  | none => .ok 0
  | some .emptyStr => .error ()
  | some .malformed => .error ()
  | some (.parsed q) => .ok q

/-- One fare detail record of `fareDetailsBySegment`. -/
structure FareSeg where
  cabin : Option String
deriving DecidableEq

/-- The `fareDetailsBySegment` field of the first traveler pricing record:
the key can be missing (the code then substitutes the default `[{}]`),
present but `null` (subscripting then raises), or a list. -/
inductive FDBS where
  | missing : FDBS
  | pynull : FDBS
  | lst : List FareSeg → FDBS
deriving DecidableEq

/-- One traveler pricing record. -/
structure TravelerPricing where
  fareDetailsBySegment : FDBS
deriving DecidableEq

/-- A raw flight offer as returned by the search collaborator.
`price = none` models a missing/`None` price object (the code substitutes
`{}`); `travelerPricings` models `offer.get("travelerPricings", []) or []`. -/
structure RawOffer where
  id : Option String
  price : Option PriceObj
  itineraries : List Itinerary
  travelerPricings : List TravelerPricing
deriving DecidableEq

/-! ## `parse_iso_duration_minutes` -/

/-- Embedding of `parse_iso_duration_minutes`: a tiny parser for strings like
`"PT5H35M"`.  An `int(...)` failure raises inside the `try`, so the values
assigned up to that point (zero-initialized) are what the final
`hours * 60 + minutes` sees. -/
def parse_iso_duration_minutes (iso : String) : ℤ :=
  let s0 := stripPT iso.data
  if charIn 'H' s0 then
    let parts := charsSplitOn 'H' s0
    match pyInt ⟨parts.headD []⟩ with
    | none => 0
    | some hours =>
      let s1 := if parts.length > 1 then parts.getD 1 [] else []
      if charIn 'M' s1 then
        match pyInt ⟨(charsSplitOn 'M' s1).headD []⟩ with
        | none => hours * 60
        | some minutes => hours * 60 + minutes
      else hours * 60
  else
    if charIn 'M' s0 then
      match pyInt ⟨(charsSplitOn 'M' s0).headD []⟩ with
      | none => 0
      | some minutes => minutes
    else 0

/-! ## `passes_filters`

The Python function is a sequence of independent checks, each returning
`False` on the first violation; the conjunction of per-check predicates is
the same function. -/

/-- Total per-segment stop count of one itinerary. -/
def itinStops (itin : Itinerary) : ℤ :=
  itin.segments.foldl (fun acc seg => acc + seg.numberOfStops) 0

/-- Stop-count check (lines 209–216): within each itinerary the summed
`numberOfStops` must not exceed `max_stops`. -/
def stops_check (itineraries : List Itinerary) (max_stops : ℤ) : Bool :=
  itineraries.all (fun itin => itinStops itin ≤ max_stops)

/-- Red-eye check: when enabled, no segment may have a parsed departure hour
in `[0, 5)`; missing or unparseable timestamps are skipped. -/
def redeye_check (itineraries : List Itinerary) (exclude_redeye : Bool) : Bool :=
  if exclude_redeye then
    itineraries.all (fun itin => itin.segments.all (fun seg =>
      match tsParsed seg.departure_at with
      | some t => !(t.hour < 5 : Bool)
      | none => true))
  else true

/-- The carrier code of a segment as the filter reads it:
`(seg.get("operating", {}).get("carrierCode") or seg.get("carrierCode") or "").upper()`. -/
def segCarrier (seg : Segment) : String :=
  pyUpper (pyOrStr (pyOrOpt seg.operatingCarrierCode seg.carrierCode) "")

/-- Preferred-carriers check: when the set is non-empty, every segment with a
truthy carrier code must match one of the preferred carriers. -/
def carriers_check (itineraries : List Itinerary) (preferred_carriers : List String) : Bool :=
  if preferred_carriers ≠ [] then
    itineraries.all (fun itin => itin.segments.all (fun seg =>
      let carrier := segCarrier seg
      carrier = "" || preferred_carriers.contains carrier))
  else true

/-- Minimum-layover check: for each consecutive segment pair the gap between
arrival and next departure must not be below the configured minimum;
missing or unparseable timestamps skip the pair. -/
def layover_check (itineraries : List Itinerary) (min_layover_minutes : ℤ) : Bool :=
  if 0 < min_layover_minutes then
    itineraries.all (fun itin =>
      (itin.segments.zip itin.segments.tail).all (fun pr =>
        match tsParsed pr.1.arrival_at, tsParsed pr.2.departure_at with
        | some a, some d => !(d.minutes - a.minutes < (min_layover_minutes : ℚ) : Bool)
        | _, _ => true))
  else true

/-- Minutes one segment contributes to the total travel time: the parsed
`"PT#H#M"` duration when present, else the arrival−departure difference,
else nothing. -/
def segTravelMinutes (seg : Segment) : ℚ :=
  match seg.duration with
  | some dur =>
    if dur ≠ "" && startsWithPT dur.data then (parse_iso_duration_minutes dur : ℚ)
    else
      match tsParsed seg.departure_at, tsParsed seg.arrival_at with
      | some d, some a => a.minutes - d.minutes
      | _, _ => 0
  | none =>
    match tsParsed seg.departure_at, tsParsed seg.arrival_at with
    | some d, some a => a.minutes - d.minutes
    | _, _ => 0

/-- Maximum-total-travel-time check: when a positive ceiling is configured,
the summed segment durations across all itineraries must not exceed it. -/
def travel_time_check (itineraries : List Itinerary) (max_total_travel_minutes : ℤ) : Bool :=
  if 0 < max_total_travel_minutes then
    let total := itineraries.foldl
      (fun acc itin => itin.segments.foldl (fun a seg => a + segTravelMinutes seg) acc) 0
    !((max_total_travel_minutes : ℚ) < total : Bool)
  else true

/-- Embedding of `passes_filters` (crew_coordinator.py lines 201–280). -/
def passes_filters (itineraries : List Itinerary) (max_stops : ℤ)
    (exclude_redeye : Bool) (preferred_carriers : List String)
    (min_layover_minutes : ℤ) (max_total_travel_minutes : ℤ) : Bool :=
  stops_check itineraries max_stops
    && redeye_check itineraries exclude_redeye
    && carriers_check itineraries preferred_carriers
    && layover_check itineraries min_layover_minutes
    && travel_time_check itineraries max_total_travel_minutes

/-! ## Currency conversion -/

/-- The static FX table `_FX` (float literals as exact rationals:
`1.08 = 27/25`, `0.93 = 93/100`). -/
def FX : List ((String × String) × ℚ) :=
  [(("EUR", "USD"), mkRat 27 25), (("USD", "EUR"), mkRat 93 100)]

/-- Embedding of `convert_currency`.  The optional live-rate collaborator
`fetch_live_fx` is passed in as a function returning `none` when it is not
configured, fails, or raises (the caller swallows its exceptions); a returned
rate of `0` is falsy in `if live_rate:` and also falls through to the
unconverted amount. -/
def convert_currency (liveFx : String → String → Option ℚ)
    (amount : ℚ) (from_currency to_currency : String) : ℚ :=
  if from_currency = to_currency then amount
  else
    match (FX.find? (fun e => e.1 = (from_currency, to_currency))).map Prod.snd with
    | some rate => round2 (amount * rate)
    | none =>
      match liveFx from_currency to_currency with
      | some live_rate => if live_rate ≠ 0 then round2 (amount * live_rate) else amount
      | none => amount

/-! ## Per-offer processing (the body of the offer loop, lines 49–88) -/

/-- Outcome of the cabin-class block (lines 57–63): `proceed` falls through to
`passes_filters`, `reject` is the `continue` on a cabin mismatch, `exc` is an
exception escaping the block (caught by the per-offer handler, which also
skips the offer). -/
inductive CabinOutcome where
  | proceed : CabinOutcome
  | reject : CabinOutcome
  | exc : CabinOutcome
deriving DecidableEq

/-- Embedding of the cabin-class filter block.  With the key missing the code
reads the default `[{}]`, whose first element has no cabin; with the key
present as `null` or `[]`, `[0]` raises. -/
def cabin_check (cabin_class : String) (offer : RawOffer) : CabinOutcome :=
  if cabin_class ≠ "ANY" then
    match offer.travelerPricings with
    | [] => .proceed
    | tp :: _ =>
      match tp.fareDetailsBySegment with
      | .missing =>
        let fare_cabin := pyUpper (pyOrStr (none : Option String) "")
        if fare_cabin ≠ "" && fare_cabin ≠ cabin_class then .reject else .proceed
      | .pynull => .exc
      | .lst [] => .exc
      | .lst (f :: _) =>
        let fare_cabin := pyUpper (pyOrStr f.cabin "")
        if fare_cabin ≠ "" && fare_cabin ≠ cabin_class then .reject else .proceed
  else .proceed

/-- A processed offer as appended to `offers`. -/
structure Highlights where
  stops : ℤ
  carriers : List String
  depart_at : Option String
  arrive_at : Option String
deriving DecidableEq

/-- Embedding of `build_highlights`: fold over every segment accumulating the
stop total, the distinct truthy carrier codes in first-seen order, and the
string-minimal departure / string-maximal arrival timestamps. -/
def build_highlights (itineraries : List Itinerary) : Highlights :=
  let step := fun (acc : ℤ × List String × Option String × Option String) (seg : Segment) =>
    let (total_stops, carriers, first_dep, last_arr) := acc
    let total_stops := total_stops + seg.numberOfStops
    let carrier := pyOrOpt seg.operatingCarrierCode seg.carrierCode
    let carriers :=
      match carrier with
      | some c => if c ≠ "" && !carriers.contains c then carriers ++ [c] else carriers
      | none => carriers
    let dep := (seg.departure_at).map TS.raw
    let first_dep :=
      match dep with
      | some d =>
        if d ≠ "" && (match first_dep with
          | none => true
          | some fd => pyStrLt d fd) then some d else first_dep
      | none => first_dep
    let arr := (seg.arrival_at).map TS.raw
    let last_arr :=
      match arr with
      | some a =>
        if a ≠ "" && (match last_arr with
          | none => true
          | some la => pyStrLt la a) then some a else last_arr
      | none => last_arr
    (total_stops, carriers, first_dep, last_arr)
  let r := itineraries.foldl (fun acc itin => itin.segments.foldl step acc) (0, [], none, none)
  { stops := r.1, carriers := r.2.1, depart_at := r.2.2.1, arrive_at := r.2.2.2 }

/-- An offer that survived filtering, as appended to `offers` (line 80). -/
structure NormalizedOffer where
  id : Option String
  price : ℚ
  currency : String
  itineraries : List Itinerary
  highlights : Highlights
deriving DecidableEq

/-- The filter configuration extracted from the request preferences. -/
structure FilterCfg where
  cabin_class : String
  target_currency : String
  max_stops : ℤ
  exclude_redeye : Bool
  preferred_carriers : List String
  min_layover_minutes : ℤ
  max_total_travel_minutes : ℤ
deriving DecidableEq

/-- The body of the per-offer loop (lines 49–88): `none` models both a
`continue` (cabin mismatch, failed filter, non-positive price) and an
exception caught by the per-offer `try`/`except` (malformed price, cabin
subscript error); `some` is the offer appended to `offers`. -/
def processOffer (liveFx : String → String → Option ℚ) (cfg : FilterCfg)
    (offer : RawOffer) : Option NormalizedOffer :=
  let price_obj := offer.price.getD { total := none, grandTotal := none, currency := none }
  match floatOfTotal (firstTruthyP price_obj.total price_obj.grandTotal) with
  | .error _ => none
  | .ok total =>
    let currency := pyUpper (pyOrStr price_obj.currency "USD")
    let itineraries := offer.itineraries
    match cabin_check cfg.cabin_class offer with
    | .exc => none
    | .reject => none
    | .proceed =>
      if passes_filters itineraries cfg.max_stops cfg.exclude_redeye cfg.preferred_carriers
          cfg.min_layover_minutes cfg.max_total_travel_minutes then
        let normalized_price := convert_currency liveFx total currency cfg.target_currency
        if 0 < normalized_price then
          some { id := offer.id, price := normalized_price, currency := cfg.target_currency,
                 itineraries := itineraries, highlights := build_highlights itineraries }
        else none
      else none

/-- The surviving offers, in upstream order (the loop appends to `offers`). -/
def collectOffers (liveFx : String → String → Option ℚ) (cfg : FilterCfg)
    (results : List RawOffer) : List NormalizedOffer :=
  results.filterMap (processOffer liveFx cfg)

/-! ## Statistics -/

/-- Sorting with Python `sorted` / `list.sort` semantics: ascending and
stable (insertion sort is stable, and a stable ascending sort is unique). -/
def pySort (l : List ℚ) : List ℚ := List.insertionSort (fun a b => a ≤ b) l

/-- Embedding of `percentile` (lines 188–198): linear interpolation between
closest ranks at `k = (n − 1) · pct / 100`; `int(k)` truncates toward zero. -/
def percentile (sorted_values : List ℚ) (pct : ℚ) : ℚ :=
  if sorted_values = [] then 0
  else
    let k : ℚ := ((sorted_values.length : ℚ) - 1) * (pct * mkRat 1 100)
    let f : ℤ := pyTrunc k
    let c : ℤ := min (f + 1) ((sorted_values.length : ℤ) - 1)
    if f = c then sorted_values.getD (pyTrunc k).toNat 0
    else
      let d0 := sorted_values.getD f.toNat 0 * ((c : ℚ) - k)
      let d1 := sorted_values.getD c.toNat 0 * (k - (f : ℚ))
      d0 + d1

/-- Python `statistics.median`: middle of the sorted values, averaging the two
middle values for even length (callers only invoke it on non-empty lists). -/
def statistics_median (l : List ℚ) : ℚ :=
  let s := pySort l
  let n := s.length
  if n % 2 = 1 then s.getD (n / 2) 0
  else (s.getD (n / 2 - 1) 0 + s.getD (n / 2) 0) * mkRat 1 2

/-- The price summary dict built at lines 90–100; the empty dict (built when
`prices` is empty) is modelled as `none`. -/
structure PriceSummary where
  count : Nat
  min : ℚ
  p25 : ℚ
  median : ℚ
  p75 : ℚ
  max : ℚ
deriving DecidableEq

/-- Python `min` over a non-empty float list. -/
def listMin (l : List ℚ) : ℚ :=
  match l with
  | [] => 0
  | h :: t => t.foldl (fun a b => if b < a then b else a) h

/-- Python `max` over a non-empty float list. -/
def listMax (l : List ℚ) : ℚ :=
  match l with
  | [] => 0
  | h :: t => t.foldl (fun a b => if a < b then b else a) h

/-- Summary construction (lines 90–100). -/
def mk_summary (prices : List ℚ) : Option PriceSummary :=
  if prices = [] then none
  else
    let prices_sorted := pySort prices
    some { count := prices.length
         , min := listMin prices
         , p25 := percentile prices_sorted 25
         , median := statistics_median prices
         , p75 := percentile prices_sorted 75
         , max := listMax prices }

/-! ## Ranking and annotation -/

/-- Offer score (lines 107–111): distance to the median target with a
`0.01·price` tie-break when a target exists, raw price otherwise. -/
def offerScore (target : Option ℚ) (o : NormalizedOffer) : ℚ :=
  match target with
  | some t => |o.price - t| + mkRat 1 100 * o.price
  | none => o.price

/-- Ranking (lines 106–113): ascending stable sort of `(score, offer)` pairs
by score, keeping the first three offers. -/
def rank_top (target : Option ℚ) (offers : List NormalizedOffer) : List NormalizedOffer :=
  let ranked := offers.map (fun o => (offerScore target o, o))
  ((List.insertionSort (fun a b => a.1 ≤ b.1) ranked).map Prod.snd).take 3

/-- A top recommendation: the offer dict with `pros`/`cons` lists added. -/
structure RankedOffer where
  offer : NormalizedOffer
  pros : List String
  cons : List String
deriving DecidableEq

/-- Embedding of `annotate_pros_cons` (lines 373–396). -/
def annotate_pros_cons (offer : NormalizedOffer) (median_price : Option ℚ) : RankedOffer :=
  let priceLabels : List String × List String :=
    match median_price with
    | some t =>
      if offer.price ≤ t then (["priced at or below median"], [])
      else ([], ["priced above median"])
    | none => ([], [])
  let nonstop := offer.itineraries.all (fun itin =>
    itin.segments.all (fun seg => !(0 < seg.numberOfStops : Bool)))
  if nonstop then
    { offer := offer, pros := priceLabels.1 ++ ["non-stop segments"], cons := priceLabels.2 }
  else
    { offer := offer, pros := priceLabels.1, cons := priceLabels.2 ++ ["one or more stops"] }

/-! ## Explanation -/

/-- The active-filters payload passed to both explanation paths. -/
structure FiltersInfo where
  max_stops : ℤ
  exclude_redeye : Bool
  preferred_carriers : List String
deriving DecidableEq

/-- Embedding of `basic_explanation` (lines 322–353). -/
def basic_explanation (summary : Option PriceSummary)
    (recommendation : Option NormalizedOffer) (filters : FiltersInfo)
    (date_window : String) (currency : String) : String :=
  match summary with
  | none => "No price summary available. Try different dates or relaxing filters."
  | some s =>
    let stats :=
      "We evaluated " ++ natToStr s.count ++ " offers over " ++ date_window ++ ". " ++
      "Price range: " ++ formatQ2 s.min ++ "-" ++ formatQ2 s.max ++ " " ++ currency ++ ". " ++
      "Median: " ++ formatQ2 s.median ++ " " ++ currency ++ "."
    let carriers_str :=
      if filters.preferred_carriers ≠ [] then String.intercalate "," filters.preferred_carriers
      else "none"
    let filt :=
      " Filters applied: max_stops=" ++ intToStr filters.max_stops ++
      ", exclude_redeye=" ++ pyBoolStr filters.exclude_redeye ++
      ", preferred_carriers=[" ++ carriers_str ++ "]."
    let rec_part :=
      match recommendation with
      | some r =>
        " Recommended option balances cost near median (" ++ formatQ2 r.price ++ " " ++
        currency ++ ") and constraints."
      | none => ""
    stats ++ filt ++ rec_part

/-- The structured payload handed to the LLM explanation collaborator. -/
structure LlmPayload where
  summary : Option PriceSummary
  recommendation_price : Option ℚ
  filters : FiltersInfo
  date_window : String
  target_currency : String

/-! ## Date-window sweep -/

/-- Embedding of `expand_dates` (lines 305–319): `none` models the
`ValueError` raised by `date.fromisoformat` on a malformed date, which
propagates to the caller. -/
def expand_dates (departure_date : String) (return_date : Option String)
    (window_days : Nat) : Option (List (String × Option String)) :=
  match PyDate.fromisoformat departure_date with
  | none => none
  | some dd =>
    let offsets := (List.range (2 * window_days + 1)).map
      (fun (i : ℕ) => ((i : ℤ) - (window_days : ℤ)))
    match return_date with
    | some r =>
      if r ≠ "" then
        match PyDate.fromisoformat r with
        | none => none
        | some rd =>
          some (offsets.map (fun off =>
            ((dd.addDays off).isoformat, some ((rd.addDays off).isoformat))))
      else some (offsets.map (fun off => ((dd.addDays off).isoformat, none)))
    | none => some (offsets.map (fun off => ((dd.addDays off).isoformat, none)))

/-- Result of one `search_flights` call: a list of offers, or anything
non-list (the error marker), which contributes nothing. -/
inductive SearchRes where
  | ok : List RawOffer → SearchRes
  | err : SearchRes

/-- Embedding of `cached_search_sweep` (lines 446–454) for a single call: the
`lru_cache` is observationally transparent for one invocation and is not
modelled.  The flight-search collaborator is the parameter `searchFn`. -/
def cached_search_sweep (searchFn : String → String → String → Option String → ℤ → SearchRes)
    (origin destination departure_date return_date : String) (travelers : ℤ) :
    Option (List RawOffer) :=
  match expand_dates departure_date
      (if return_date ≠ "" then some return_date else none) 3 with
  | none => none
  | some dates =>
    some (dates.foldl (fun aggregated dr =>
      match searchFn origin destination dr.1 dr.2 travelers with
      | .ok res => aggregated ++ res
      | .err => aggregated) [])

/-! ## The analysis entry point -/

/-- Preference values as extracted at lines 29–34 (each `int(...)`/`bool(...)`
coercion applied to a well-typed preferences dict, with the documented
per-key defaults for missing keys). -/
structure Preferences where
  max_stops : ℤ
  preferred_carriers : List String
  exclude_redeye : Bool
  min_layover_minutes : ℤ
  max_total_travel_minutes : ℤ
  cabin_class : Option String
deriving DecidableEq

/-- The defaults used when `preferences` is absent or not a dict. -/
def defaultPreferences : Preferences :=
  { max_stops := 1, preferred_carriers := [], exclude_redeye := false,
    min_layover_minutes := 0, max_total_travel_minutes := 0, cabin_class := none }

/-- A travel request as delivered by the router's `model_dump()`. -/
structure TravelRequest where
  origin : String
  destination : String
  departure_date : String
  return_date : Option String
  travelers : ℤ
  currency : Option String
  preferences : Option Preferences
deriving DecidableEq

/-- The result object built at lines 151–160. -/
structure ResultObj where
  summary : Option PriceSummary
  recommendation : Option NormalizedOffer
  top_recommendations : List RankedOffer
  offers_considered : Nat
  inputs : TravelRequest
  version : String
  notes : String
  explanation : String
deriving DecidableEq

/-- Embedding of `execute_travel_analysis`.  External collaborators are
parameters: `searchFn` (flight search), `liveFx` (live FX lookup), and `llm`
(`none` when `GroqLLMManager` is unavailable; `some f` with `f payload = none`
when constructing/calling it raises).  The best-effort history write (lines
162–183) has no observable effect on the result and is not modelled.  `none`
models an exception escaping the function (a malformed date raising inside
`expand_dates` via `cached_search_sweep`). -/
def execute_travel_analysis
    (searchFn : String → String → String → Option String → ℤ → SearchRes)
    (liveFx : String → String → Option ℚ)
    (llm : Option (LlmPayload → Option String))
    (request : TravelRequest) : Option ResultObj :=
  let target_currency := pyUpper (pyOrStr request.currency "USD")
  let p := request.preferences.getD defaultPreferences
  let max_stops := p.max_stops
  let preferred_carriers := p.preferred_carriers.map pyUpper
  let exclude_redeye := p.exclude_redeye
  let min_layover_minutes := p.min_layover_minutes
  let max_total_travel_minutes := p.max_total_travel_minutes
  let cabin_class := pyUpper (pyOrStr p.cabin_class "ANY")
  let cfg : FilterCfg :=
    { cabin_class := cabin_class, target_currency := target_currency,
      max_stops := max_stops, exclude_redeye := exclude_redeye,
      preferred_carriers := preferred_carriers,
      min_layover_minutes := min_layover_minutes,
      max_total_travel_minutes := max_total_travel_minutes }
  match cached_search_sweep searchFn request.origin request.destination
      request.departure_date (pyOrStr request.return_date "") request.travelers with
  | none => none
  | some results =>
    let offers := collectOffers liveFx cfg results
    let prices := offers.map NormalizedOffer.price
    let summary := mk_summary prices
    let target := summary.map PriceSummary.median
    let top := rank_top target offers
    let recommendation := top.head?
    let recommendations := top.map (fun x => annotate_pros_cons x target)
    let filters : FiltersInfo :=
      { max_stops := max_stops, exclude_redeye := exclude_redeye,
        preferred_carriers := preferred_carriers }
    let explanationLlm : Option String :=
      match llm, recommendation with
      | some f, some rec =>
        f { summary := summary, recommendation_price := some rec.price,
            filters := filters, date_window := "+/- 3 days",
            target_currency := target_currency }
      | _, _ => none
    let explanation :=
      match explanationLlm with
      | some e => e
      | none => basic_explanation summary recommendation filters "+/- 3 days" target_currency
    some { summary := summary
         , recommendation := recommendation
         , top_recommendations := recommendations
         , offers_considered := offers.length
         , inputs := request
         , version := "0.1.0"
         , notes := "Heuristic-based analysis (no ML). Prices normalized to target currency. Includes +/- 3-day sweep."
         , explanation := explanation }

/-! ## Spec-level definitions (for refinement comparisons)

These two definitions transcribe the SPEC's wording, to be compared with the
definitions embedded from the source. -/

/-- The spec's reading of the stop-count filter quantity: "sum of per-segment
stop counts across all itineraries" of the offer. -/
def totalStopsAllItineraries (itineraries : List Itinerary) : ℤ :=
  itineraries.foldl (fun acc itin => acc + itinStops itin) 0

/-- The spec's percentile formula: at index `k = (n−1)·p/100`, with
`f = ⌊k⌋` and `c = ⌈k⌉`, interpolate `v[f]·(c−k) + v[c]·(k−f)`, returning
`v[k]` directly when `f = c`. -/
def specPercentile (sortedVals : List ℚ) (p : ℚ) : ℚ :=
  let n := sortedVals.length
  let k : ℚ := ((n : ℚ) - 1) * p / 100
  let f : ℤ := ⌊k⌋
  let c : ℤ := ⌈k⌉
  if f = c then sortedVals.getD f.toNat 0
  else sortedVals.getD f.toNat 0 * ((c : ℚ) - k) + sortedVals.getD c.toNat 0 * (k - (f : ℚ))

/-- The spec's median: middle of the sorted values, averaging the two middle
values for even-length lists. -/
def specMedian (l : List ℚ) : ℚ :=
  let s := pySort l
  if 2 ∣ s.length then (s.getD (s.length / 2 - 1) 0 + s.getD (s.length / 2) 0) / 2
  else s.getD (s.length / 2) 0

/-- A price has at most two decimal places when multiplying by 100 clears the
denominator. -/
@[reducible] def hasTwoDecimals (q : ℚ) : Prop := (q * 100).den = 1

/-! ## Concrete fixtures for counterexamples and witnesses -/

/-- Live-FX collaborator that is not configured. -/
def wNoFx : String → String → Option ℚ := fun _ _ => none

/-- Flight-search collaborator that always returns the error marker. -/
def wErrSearch : String → String → String → Option String → ℤ → SearchRes :=
  fun _ _ _ _ _ => .err

/-- A well-formed USD offer with the given id and price, no itineraries and no
traveler pricing records. -/
def usdOffer (i : String) (amt : ℚ) : RawOffer :=
  { id := some i
  , price := some { total := some (.parsed amt), grandTotal := none, currency := some "USD" }
  , itineraries := []
  , travelerPricings := [] }

/-- Search collaborator returning four USD offers priced 90/100/110/200 on the
requested departure date and nothing on the swept neighbours. -/
def wSearch4 : String → String → String → Option String → ℤ → SearchRes :=
  fun _ _ dd _ _ =>
    if dd = "2025-06-10" then
      .ok [usdOffer "a" 90, usdOffer "b" 100, usdOffer "c" 110, usdOffer "d" 200]
    else .ok []

/-- Search collaborator returning four USD offers priced 10/20/30/40. -/
def wSearch40 : String → String → String → Option String → ℤ → SearchRes :=
  fun _ _ dd _ _ =>
    if dd = "2025-06-10" then
      .ok [usdOffer "a" 10, usdOffer "b" 20, usdOffer "c" 30, usdOffer "d" 40]
    else .ok []

/-- A baseline request: one-way CMB→LHR on 2025-06-10, USD, no preferences. -/
def wRequest : TravelRequest :=
  { origin := "CMB", destination := "LHR", departure_date := "2025-06-10"
  , return_date := none, travelers := 1, currency := some "USD", preferences := none }

/-- A one-segment itinerary whose segment has one stop. -/
def itinOneStop : Itinerary :=
  { segments := [{ numberOfStops := 1, departure_at := none, arrival_at := none
                 , operatingCarrierCode := none, carrierCode := none, duration := none }] }

/-- Filter configuration asking for ECONOMY cabin, otherwise unconstrained. -/
def cfgEco : FilterCfg :=
  { cabin_class := "ECONOMY", target_currency := "USD", max_stops := 1
  , exclude_redeye := false, preferred_carriers := [], min_layover_minutes := 0
  , max_total_travel_minutes := 0 }

/-- Filter configuration with cabin ANY, otherwise unconstrained. -/
def cfgAny : FilterCfg :=
  { cfgEco with cabin_class := "ANY" }

/-- An offer whose first traveler pricing record carries an empty
`fareDetailsBySegment` list. -/
def offerFdEmpty : RawOffer :=
  { usdOffer "x" 100 with travelerPricings := [{ fareDetailsBySegment := .lst [] }] }

/-- An offer whose first traveler pricing record has no `fareDetailsBySegment`
key. -/
def offerFdMissing : RawOffer :=
  { usdOffer "x" 100 with travelerPricings := [{ fareDetailsBySegment := .missing }] }

/-- The normalized offer `processOffer` produces from `usdOffer "a" 90` under
`cfgAny` with target currency USD. -/
def wOffer90 : NormalizedOffer :=
  { id := some "a", price := 90, currency := "USD", itineraries := []
  , highlights := { stops := 0, carriers := [], depart_at := none, arrive_at := none } }

/-- The result object `execute_travel_analysis` builds for `wRequest` when the
upstream search fails on every swept date. -/
def wEmptyResult : ResultObj :=
  { summary := none
  , recommendation := none
  , top_recommendations := []
  , offers_considered := 0
  , inputs := wRequest
  , version := "0.1.0"
  , notes := "Heuristic-based analysis (no ML). Prices normalized to target currency. Includes +/- 3-day sweep."
  , explanation := "No price summary available. Try different dates or relaxing filters." }

/-! ## Claims -/

/-- C1 (counterexample): the stop-count filter is NOT the predicate "sum of
stops across all itineraries ≤ max_stops": an offer with two one-stop
itineraries passes all filters with `max_stops = 1` although its total stop
count over all itineraries is 2. -/
theorem C1_counterexample :
    passes_filters [itinOneStop, itinOneStop] 1 false [] 0 0 = true ∧
    ¬ totalStopsAllItineraries [itinOneStop, itinOneStop] ≤ 1 := by
  decide!

/-- C1 (amended): the stop-count filter is applied per itinerary: an offer
passes it exactly when EVERY SINGLE itinerary's per-segment stop sum is at
most `max_stops`; in particular a passing offer bounds each itinerary's sum,
not the total across itineraries. -/
theorem C1_stop_filter_per_itinerary :
    ∀ (itineraries : List Itinerary) (max_stops : ℤ) (er : Bool)
      (pc : List String) (ml mt : ℤ),
      (passes_filters itineraries max_stops er pc ml mt = true →
        ∀ itin ∈ itineraries, itinStops itin ≤ max_stops) ∧
      (stops_check itineraries max_stops = true ↔
        ∀ itin ∈ itineraries, itinStops itin ≤ max_stops) := by
  intro itineraries max_stops er pc ml mt
  have hiff : stops_check itineraries max_stops = true ↔
      ∀ itin ∈ itineraries, itinStops itin ≤ max_stops := by
    simp [stops_check, List.all_eq_true]
  refine ⟨fun hp => hiff.mp ?_, hiff⟩
  have := hp
  simp only [passes_filters, Bool.and_eq_true] at this
  exact this.1.1.1.1

/-- C1 (witness): instantiating the amended theorem on a concrete passing
offer. -/
theorem C1_witness : itinStops itinOneStop ≤ 1 :=
  (C1_stop_filter_per_itinerary [itinOneStop] 1 false [] 0 0).1 (by decide!)
    itinOneStop (by simp)

/-- C5 (counterexample): the identity conversion does not round: converting
100.999 USD to USD returns 100.999 unchanged, which has more than two decimal
places. -/
theorem C5_counterexample :
    convert_currency wNoFx (mkRat 100999 1000) "USD" "USD" = mkRat 100999 1000 ∧
    ¬ hasTwoDecimals (mkRat 100999 1000) := by
  decide!

/-- Rounding to two decimals always clears the denominator past 100. -/
theorem round2_hasTwoDecimals (q : ℚ) : hasTwoDecimals (round2 q) := by
  unfold hasTwoDecimals round2
  rw [Rat.mkRat_eq_divInt, Rat.divInt_eq_div]
  have h : ((roundHalfEven (q * 100) : ℚ)) / ((((100 : ℕ) : ℤ) : ℚ)) * 100 =
      ((roundHalfEven (q * 100) : ℚ)) := by
    push_cast
    field_simp
  rw [h]
  exact Rat.den_intCast _

/-- C5 (amended): conversion rounds to two decimal places exactly when a
static-table or live FX rate is applied; the identity case and the 1:1
fail-open fallback return the amount unchanged, with however many decimal
places it had. -/
theorem C5_rounding_only_with_rate :
    ∀ (liveFx : String → String → Option ℚ) (amount : ℚ) (fc tc : String),
      (fc = tc → convert_currency liveFx amount fc tc = amount) ∧
      (fc ≠ tc → ∀ rate, (FX.find? (fun e => e.1 = (fc, tc))).map Prod.snd = some rate →
        convert_currency liveFx amount fc tc = round2 (amount * rate) ∧
          hasTwoDecimals (convert_currency liveFx amount fc tc)) ∧
      (fc ≠ tc → (FX.find? (fun e => e.1 = (fc, tc))).map Prod.snd = none →
        ∀ r, liveFx fc tc = some r → r ≠ 0 →
          convert_currency liveFx amount fc tc = round2 (amount * r) ∧
            hasTwoDecimals (convert_currency liveFx amount fc tc)) ∧
      (fc ≠ tc → (FX.find? (fun e => e.1 = (fc, tc))).map Prod.snd = none →
        liveFx fc tc = none → convert_currency liveFx amount fc tc = amount) := by
  intro liveFx amount fc tc
  refine ⟨fun h => by simp [convert_currency, h], ?_, ?_, ?_⟩
  · intro hne rate hrate
    have h1 : convert_currency liveFx amount fc tc = round2 (amount * rate) := by
      simp [convert_currency, hne, hrate]
    exact ⟨h1, h1 ▸ round2_hasTwoDecimals _⟩
  · intro hne hnone r hr hr0
    have h1 : convert_currency liveFx amount fc tc = round2 (amount * r) := by
      simp [convert_currency, hne, hnone, hr, hr0]
    exact ⟨h1, h1 ▸ round2_hasTwoDecimals _⟩
  · intro hne hnone hlive
    simp [convert_currency, hne, hnone, hlive]

/-- C5 (witness): the amended theorem at the static EUR→USD rate and at the
identity case. -/
theorem C5_witness :
    convert_currency wNoFx 100 "EUR" "USD" = round2 (100 * mkRat 27 25) ∧
    hasTwoDecimals (convert_currency wNoFx 100 "EUR" "USD") :=
  (C5_rounding_only_with_rate wNoFx 100 "EUR" "USD").2.1 (by decide) (mkRat 27 25) (by decide!)

/-- Folding appends over a list is appending the flattened map. -/
theorem foldl_append_eq_flatten {α β : Type} (g : α → List β) :
    ∀ (dates : List α) (acc : List β),
      dates.foldl (fun a x => a ++ g x) acc = acc ++ (dates.map g).flatten := by
  intro dates
  induction dates with
  | nil => intro acc; simp
  | cons d rest ih =>
    intro acc
    simp only [List.foldl_cons, List.map_cons, List.flatten_cons, ih, List.append_assoc]

/-- C6 (counterexample): with a return date present the ±3-day expansion still
produces 7 date pairs, not 8. -/
theorem C6_counterexample :
    (expand_dates "2025-06-10" (some "2025-06-17") 3).map List.length = some 7 ∧
    (7 : Nat) ≠ 8 := by
  decide!

/-- C6 (amended): the ±`w`-day expansion always produces `2·w + 1` date pairs
(7 for the coordinator's `w = 3`, with or without a return date); for
departure 2025-06-10 without return date the pairs are exactly the 7 distinct
dates 2025-06-07 … 2025-06-13; and the sweep queries the search collaborator
once per pair, concatenating the per-pair results in order. -/
theorem C6_window_seven_pairs :
    (expand_dates "2025-06-10" none 3 =
      some [("2025-06-07", none), ("2025-06-08", none), ("2025-06-09", none),
            ("2025-06-10", none), ("2025-06-11", none), ("2025-06-12", none),
            ("2025-06-13", none)] ∧
      (["2025-06-07", "2025-06-08", "2025-06-09", "2025-06-10", "2025-06-11",
        "2025-06-12", "2025-06-13"] : List String).Nodup) ∧
    (∀ (dd : String) (rd : Option String) (w : Nat) (l : List (String × Option String)),
      expand_dates dd rd w = some l → l.length = 2 * w + 1) ∧
    (∀ (searchFn : String → String → String → Option String → ℤ → SearchRes)
       (o d dd rdstr : String) (t : ℤ) (dates : List (String × Option String)),
      expand_dates dd (if rdstr ≠ "" then some rdstr else none) 3 = some dates →
      cached_search_sweep searchFn o d dd rdstr t =
        some ((dates.map (fun dr =>
          match searchFn o d dr.1 dr.2 t with
          | .ok res => res
          | .err => [])).flatten)) := by
  refine ⟨by decide!, ?_, ?_⟩
  · intro dd rd w l h
    unfold expand_dates at h
    repeat' split at h
    all_goals try exact Option.noConfusion h
    all_goals simp only [Option.some.injEq] at h
    all_goals rw [← h]; simp
  · intro searchFn o d dd rdstr t dates h
    have hstep :
        (fun (aggregated : List RawOffer) (dr : String × Option String) =>
          match searchFn o d dr.1 dr.2 t with
          | .ok res => aggregated ++ res
          | .err => aggregated) =
        (fun aggregated dr => aggregated ++
          (match searchFn o d dr.1 dr.2 t with
           | .ok res => res
           | .err => [])) := by
      funext aggregated dr
      cases searchFn o d dr.1 dr.2 t with
      | ok res => simp
      | err => simp
    unfold cached_search_sweep
    rw [h]
    dsimp only
    rw [hstep, foldl_append_eq_flatten]
    simp

/-- C6 (witness): the amended theorem applied to the concrete round-trip
expansion and a concrete sweep. -/
theorem C6_witness :
    cached_search_sweep wErrSearch "CMB" "LHR" "2025-06-10" "" 1 =
      some (([(("2025-06-07" : String), (none : Option String)), ("2025-06-08", none),
              ("2025-06-09", none), ("2025-06-10", none), ("2025-06-11", none),
              ("2025-06-12", none), ("2025-06-13", none)].map (fun dr =>
          match wErrSearch "CMB" "LHR" dr.1 dr.2 1 with
          | .ok res => res
          | .err => [])).flatten) :=
  (C6_window_seven_pairs).2.2 wErrSearch "CMB" "LHR" "2025-06-10" "" 1 _ (by decide!)

/-- C9 (counterexample): with a non-ANY cabin class, an offer whose first
traveler pricing record has `fareDetailsBySegment = []` (fare-cabin data
absent) is DROPPED — the subscript raises and the per-offer handler skips the
offer — while the same offer with the key missing survives. -/
theorem C9_counterexample :
    processOffer wNoFx cfgEco offerFdEmpty = none ∧
    (processOffer wNoFx cfgEco offerFdMissing).isSome = true ∧
    cabin_check "ECONOMY" offerFdEmpty = .exc := by
  decide!

/-- C9 (amended): with a non-ANY cabin class, an offer with no traveler
pricing records, or whose first record lacks the `fareDetailsBySegment` key,
or whose first fare detail has no (or an empty) cabin value, proceeds past
the cabin filter; but a first record whose `fareDetailsBySegment` is an empty
list or null raises, and the offer is dropped rather than passed on. -/
theorem C9_cabin_absent_proceeds :
    ∀ (cabin_class : String) (offer : RawOffer), cabin_class ≠ "ANY" →
      (offer.travelerPricings = [] → cabin_check cabin_class offer = .proceed) ∧
      (∀ tp rest, offer.travelerPricings = tp :: rest →
        (tp.fareDetailsBySegment = .missing → cabin_check cabin_class offer = .proceed) ∧
        (∀ f fs, tp.fareDetailsBySegment = .lst (f :: fs) →
          (f.cabin = none ∨ f.cabin = some "") → cabin_check cabin_class offer = .proceed) ∧
        ((tp.fareDetailsBySegment = .lst [] ∨ tp.fareDetailsBySegment = .pynull) →
          cabin_check cabin_class offer = .exc)) := by
  intro cabin_class offer hne
  constructor
  · intro h
    simp [cabin_check, hne, h]
  · intro tp rest htp
    refine ⟨?_, ?_, ?_⟩
    · intro hmiss
      simp [cabin_check, hne, htp, hmiss, pyUpper, pyOrStr]
    · intro f fs hlst hcab
      rcases hcab with h | h <;>
        simp [cabin_check, hne, htp, hlst, h, pyUpper, pyOrStr]
    · intro hbad
      rcases hbad with h | h <;> simp [cabin_check, hne, htp, h]

/-- C9 (witness): the amended theorem applied to the concrete offers. -/
theorem C9_witness :
    cabin_check "ECONOMY" offerFdMissing = .proceed ∧
    cabin_check "ECONOMY" offerFdEmpty = .exc :=
  ⟨((C9_cabin_absent_proceeds "ECONOMY" offerFdMissing (by decide)).2
      { fareDetailsBySegment := .missing } [] (by decide!)).1 rfl,
   ((C9_cabin_absent_proceeds "ECONOMY" offerFdEmpty (by decide)).2
      { fareDetailsBySegment := .lst [] } [] (by decide!)).2.2 (Or.inl rfl)⟩

/-- When every search call returns the error marker or an empty list, the
sweep's fold leaves the accumulator unchanged. -/
theorem foldl_search_nil (searchFn : String → String → String → Option String → ℤ → SearchRes)
    (o d : String) (t : ℤ)
    (hup : ∀ (o' d' dd : String) (rd : Option String) (t' : ℤ),
      searchFn o' d' dd rd t' = SearchRes.err ∨ searchFn o' d' dd rd t' = SearchRes.ok []) :
    ∀ (dates : List (String × Option String)) (acc : List RawOffer),
      dates.foldl (fun aggregated dr =>
        match searchFn o d dr.1 dr.2 t with
        | .ok res => aggregated ++ res
        | .err => aggregated) acc = acc := by
  intro dates
  induction dates with
  | nil => intro acc; simp
  | cons dr rest ih =>
    intro acc
    simp only [List.foldl_cons]
    rcases hup o d dr.1 dr.2 t with h | h <;> rw [h] <;> simp [ih]

/-- C2: when every upstream search yields no offers (error marker or empty
list on every swept date), the analysis result has no summary, no
recommendation, zero offers considered, and the non-empty fallback
explanation sentence. -/
theorem C2_empty_upstream
    (searchFn : String → String → String → Option String → ℤ → SearchRes)
    (liveFx : String → String → Option ℚ)
    (llm : Option (LlmPayload → Option String))
    (request : TravelRequest) (r : ResultObj)
    (hup : ∀ (o d dd : String) (rd : Option String) (t : ℤ),
      searchFn o d dd rd t = SearchRes.err ∨ searchFn o d dd rd t = SearchRes.ok [])
    (hr : execute_travel_analysis searchFn liveFx llm request = some r) :
    r.summary = none ∧ r.recommendation = none ∧ r.offers_considered = 0 ∧
    r.explanation = "No price summary available. Try different dates or relaxing filters." ∧
    r.explanation ≠ "" := by
  have hres : ∀ l, cached_search_sweep searchFn request.origin request.destination
      request.departure_date (pyOrStr request.return_date "") request.travelers = some l →
      l = [] := by
    intro l hl
    unfold cached_search_sweep at hl
    split at hl
    · exact Option.noConfusion hl
    · simp only [Option.some.injEq] at hl
      rw [← hl]
      exact foldl_search_nil searchFn _ _ _ hup _ []
  cases hsw : cached_search_sweep searchFn request.origin request.destination
      request.departure_date (pyOrStr request.return_date "") request.travelers with
  | none =>
    unfold execute_travel_analysis at hr
    rw [hsw] at hr
    exact Option.noConfusion hr
  | some results =>
    have hnil : results = [] := hres results hsw
    subst hnil
    unfold execute_travel_analysis at hr
    rw [hsw] at hr
    cases llm with
    | none =>
      dsimp only at hr
      injection hr with hr
      subst hr
      refine ⟨rfl, rfl, rfl, rfl, fun hcontra => ?_⟩
      have hc : ("No price summary available. Try different dates or relaxing filters." : String)
          = "" := hcontra
      exact absurd hc (by decide)
    | some f =>
      dsimp only at hr
      injection hr with hr
      subst hr
      refine ⟨rfl, rfl, rfl, rfl, fun hcontra => ?_⟩
      have hc : ("No price summary available. Try different dates or relaxing filters." : String)
          = "" := hcontra
      exact absurd hc (by decide)

/-- C2 (witness): the theorem applied to an always-failing upstream on the
baseline request. -/
theorem C2_witness :
    wEmptyResult.summary = none ∧ wEmptyResult.recommendation = none ∧
    wEmptyResult.offers_considered = 0 ∧
    wEmptyResult.explanation =
      "No price summary available. Try different dates or relaxing filters." ∧
    wEmptyResult.explanation ≠ "" :=
  C2_empty_upstream wErrSearch wNoFx none wRequest wEmptyResult
    (fun _ _ _ _ _ => Or.inl rfl) (by decide!)

/-- C7 (counterexample): the analysis CAN raise past its own boundary: a
request whose departure date is not a valid ISO date makes
`date.fromisoformat` raise inside the sweep, and no result object is
returned. -/
theorem C7_counterexample :
    execute_travel_analysis wSearch4 wNoFx none
      { wRequest with departure_date := "garbage" } = none := by
  decide!

/-- C7 (amended): a per-offer processing error skips exactly that offer — the
surviving-offer list over a batch containing a failing offer equals the list
over the batch without it, and an offer with a malformed price string always
fails; and the analysis returns a result object for every request whose travel
dates parse (only a malformed top-level date makes it raise). -/
theorem C7_per_offer_isolation :
    (∀ (liveFx : String → String → Option ℚ) (cfg : FilterCfg)
       (pre post : List RawOffer) (bad : RawOffer),
      processOffer liveFx cfg bad = none →
      collectOffers liveFx cfg (pre ++ bad :: post) = collectOffers liveFx cfg (pre ++ post)) ∧
    (∀ (liveFx : String → String → Option ℚ) (cfg : FilterCfg) (i : Option String)
       (g : Option PStr) (c : Option String) (itins : List Itinerary)
       (tps : List TravelerPricing),
      processOffer liveFx cfg
        { id := i, price := some { total := some .malformed, grandTotal := g, currency := c }
        , itineraries := itins, travelerPricings := tps } = none) ∧
    (∀ (searchFn : String → String → String → Option String → ℤ → SearchRes)
       (liveFx : String → String → Option ℚ) (llm : Option (LlmPayload → Option String))
       (request : TravelRequest) (dates : List (String × Option String)),
      expand_dates request.departure_date
          (if (pyOrStr request.return_date "") ≠ ""
           then some (pyOrStr request.return_date "") else none) 3 = some dates →
      (execute_travel_analysis searchFn liveFx llm request).isSome = true) := by
  refine ⟨?_, ?_, ?_⟩
  · intro liveFx cfg pre post bad hbad
    simp [collectOffers, List.filterMap_append, List.filterMap_cons, hbad]
  · intro liveFx cfg i g c itins tps
    rfl
  · intro searchFn liveFx llm request dates hdates
    unfold execute_travel_analysis cached_search_sweep
    rw [hdates]
    dsimp only
    rfl

/-- C7 (witness): the amended theorem applied to a concrete malformed-price
offer between two good offers and to a concrete well-formed request. -/
theorem C7_witness :
    collectOffers wNoFx cfgAny
        ([usdOffer "a" 90] ++
          { id := none
          , price := some { total := some .malformed, grandTotal := none, currency := none }
          , itineraries := [], travelerPricings := [] } :: [usdOffer "b" 100]) =
      collectOffers wNoFx cfgAny ([usdOffer "a" 90] ++ [usdOffer "b" 100]) ∧
    (execute_travel_analysis wSearch4 wNoFx none wRequest).isSome = true :=
  ⟨C7_per_offer_isolation.1 wNoFx cfgAny [usdOffer "a" 90] [usdOffer "b" 100] _
      (C7_per_offer_isolation.2.1 wNoFx cfgAny none none none [] []),
   C7_per_offer_isolation.2.2 wSearch4 wNoFx none wRequest
      [("2025-06-07", none), ("2025-06-08", none), ("2025-06-09", none),
       ("2025-06-10", none), ("2025-06-11", none), ("2025-06-12", none),
       ("2025-06-13", none)] (by decide!)⟩

/-- The stop-count check is monotone in the allowed maximum. -/
theorem stops_check_mono {itins : List Itinerary} {m m' : ℤ} (hle : m' ≤ m)
    (h : stops_check itins m' = true) : stops_check itins m = true := by
  simp only [stops_check, List.all_eq_true, decide_eq_true_eq] at h ⊢
  exact fun itin hi => le_trans (h itin hi) hle

/-- `passes_filters` is monotone in `max_stops`. -/
theorem passes_filters_mono {itins : List Itinerary} {m m' : ℤ} {er : Bool}
    {pc : List String} {ml mt : ℤ} (hle : m' ≤ m)
    (h : passes_filters itins m' er pc ml mt = true) :
    passes_filters itins m er pc ml mt = true := by
  simp only [passes_filters, Bool.and_eq_true] at h ⊢
  exact ⟨⟨⟨⟨stops_check_mono hle h.1.1.1.1, h.1.1.1.2⟩, h.1.1.2⟩, h.1.2⟩, h.2⟩

/-- Raising `max_stops` preserves per-offer acceptance (with the same output
offer). -/
theorem processOffer_mono_stops {liveFx : String → String → Option ℚ}
    {cfg : FilterCfg} {m' : ℤ} (hle : m' ≤ cfg.max_stops) {offer : RawOffer}
    {no : NormalizedOffer}
    (h : processOffer liveFx { cfg with max_stops := m' } offer = some no) :
    processOffer liveFx cfg offer = some no := by
  unfold processOffer at h ⊢
  dsimp only at h ⊢
  generalize hT : floatOfTotal (firstTruthyP
      (offer.price.getD { total := none, grandTotal := none, currency := none }).total
      (offer.price.getD { total := none, grandTotal := none, currency := none }).grandTotal)
      = T at h ⊢
  cases T with
  | error e => exact absurd h (by simp)
  | ok total =>
    dsimp only at h ⊢
    generalize hC : cabin_check cfg.cabin_class offer = C at h ⊢
    cases C with
    | exc => exact absurd h (by simp)
    | reject => exact absurd h (by simp)
    | proceed =>
      dsimp only at h ⊢
      by_cases hpf : passes_filters offer.itineraries m' cfg.exclude_redeye
          cfg.preferred_carriers cfg.min_layover_minutes cfg.max_total_travel_minutes = true
      · rw [if_pos hpf] at h
        rw [if_pos (passes_filters_mono hle hpf)]
        exact h
      · rw [if_neg hpf] at h
        exact absurd h (by simp)

/-- Pointwise success implication gives a `filterMap` length bound. -/
theorem filterMap_length_mono {α β : Type} {f g : α → Option β}
    (h : ∀ a b, f a = some b → g a = some b) :
    ∀ l : List α, (l.filterMap f).length ≤ (l.filterMap g).length := by
  intro l
  induction l with
  | nil => simp
  | cons a rest ih =>
    cases hfa : f a with
    | none =>
      cases hga : g a with
      | none => simpa [List.filterMap_cons, hfa, hga] using ih
      | some b =>
        simp only [List.filterMap_cons, hfa, hga, List.length_cons]
        exact le_trans ih (Nat.le_succ _)
    | some b =>
      have hgb := h a b hfa
      simp only [List.filterMap_cons, hfa, hgb, List.length_cons]
      exact Nat.succ_le_succ ih

/-- C8: filtering is monotone in `max_stops`: an offer passing with a stricter
maximum also passes with any larger one, and lowering `max_stops` never
increases the number of surviving offers of a fixed upstream batch. -/
theorem C8_max_stops_monotone :
    (∀ (itins : List Itinerary) (m m' : ℤ) (er : Bool) (pc : List String) (ml mt : ℤ),
      m' ≤ m → passes_filters itins m' er pc ml mt = true →
      passes_filters itins m er pc ml mt = true) ∧
    (∀ (liveFx : String → String → Option ℚ) (cfg : FilterCfg) (m' : ℤ),
      m' ≤ cfg.max_stops → ∀ results : List RawOffer,
      (collectOffers liveFx { cfg with max_stops := m' } results).length ≤
        (collectOffers liveFx cfg results).length) := by
  constructor
  · intro itins m m' er pc ml mt hle h
    exact passes_filters_mono hle h
  · intro liveFx cfg m' hle results
    exact filterMap_length_mono (fun a b hab => processOffer_mono_stops hle hab) results

/-- C8 (witness): the theorem at a concrete passing offer and a concrete
batch. -/
theorem C8_witness :
    passes_filters [itinOneStop] 2 false [] 0 0 = true ∧
    (collectOffers wNoFx { cfgAny with max_stops := 0 }
        [usdOffer "a" 90, usdOffer "b" 100]).length ≤
      (collectOffers wNoFx cfgAny [usdOffer "a" 90, usdOffer "b" 100]).length :=
  ⟨C8_max_stops_monotone.1 [itinOneStop] 2 1 false [] 0 0 (by decide) (by decide!),
   C8_max_stops_monotone.2 wNoFx cfgAny 0 (by decide) [usdOffer "a" 90, usdOffer "b" 100]⟩

/-- A produced offer always carries a strictly positive price (the guard at
line 78). -/
theorem processOffer_price_pos {liveFx : String → String → Option ℚ}
    {cfg : FilterCfg} {offer : RawOffer} {no : NormalizedOffer}
    (h : processOffer liveFx cfg offer = some no) : 0 < no.price := by
  unfold processOffer at h
  dsimp only at h
  generalize hT : floatOfTotal (firstTruthyP
      (offer.price.getD { total := none, grandTotal := none, currency := none }).total
      (offer.price.getD { total := none, grandTotal := none, currency := none }).grandTotal)
      = T at h
  cases T with
  | error e => exact absurd h (by simp)
  | ok total =>
    dsimp only at h
    generalize hC : cabin_check cfg.cabin_class offer = C at h
    cases C with
    | exc => exact absurd h (by simp)
    | reject => exact absurd h (by simp)
    | proceed =>
      dsimp only at h
      split at h
      · split at h
        case isTrue hnp =>
          injection h with h
          subst h
          exact hnp
        case isFalse hnp => exact Option.noConfusion h
      · exact Option.noConfusion h

/-- Annotation adds pros/cons but keeps the offer itself. -/
theorem annotate_pros_cons_offer (o : NormalizedOffer) (t : Option ℚ) :
    (annotate_pros_cons o t).offer = o := by
  unfold annotate_pros_cons
  dsimp only
  split <;> rfl

/-- Every top-ranked offer comes from the input offer list. -/
theorem rank_top_subset {target : Option ℚ} {offers : List NormalizedOffer}
    {x : NormalizedOffer} (hx : x ∈ rank_top target offers) : x ∈ offers := by
  unfold rank_top at hx
  dsimp only at hx
  have hx' := List.mem_of_mem_take hx
  rcases List.mem_map.mp hx' with ⟨p, hp, hpx⟩
  rw [List.mem_insertionSort] at hp
  rcases List.mem_map.mp hp with ⟨o, ho, hop⟩
  rw [← hpx, ← hop]
  exact ho

/-- C10: every surviving offer has a strictly positive normalized price, so
every price entering the summary, the recommendation and every top
recommendation is strictly positive, and a zero-priced offer is excluded even
though it passes every filter. -/
theorem C10_positive_prices :
    (∀ (liveFx : String → String → Option ℚ) (cfg : FilterCfg) (offer : RawOffer)
       (no : NormalizedOffer), processOffer liveFx cfg offer = some no → 0 < no.price) ∧
    (∀ (liveFx : String → String → Option ℚ) (cfg : FilterCfg) (results : List RawOffer)
       (o : NormalizedOffer), o ∈ collectOffers liveFx cfg results → 0 < o.price) ∧
    (∀ (liveFx : String → String → Option ℚ) (cfg : FilterCfg) (results : List RawOffer)
       (p : ℚ), p ∈ (collectOffers liveFx cfg results).map NormalizedOffer.price → 0 < p) ∧
    (∀ (searchFn : String → String → String → Option String → ℤ → SearchRes)
       (liveFx : String → String → Option ℚ) (llm : Option (LlmPayload → Option String))
       (request : TravelRequest) (r : ResultObj),
      execute_travel_analysis searchFn liveFx llm request = some r →
      (∀ x ∈ r.top_recommendations, 0 < x.offer.price) ∧
      (∀ rec, r.recommendation = some rec → 0 < rec.price)) ∧
    (passes_filters [] 1 false [] 0 0 = true ∧
      processOffer wNoFx cfgAny (usdOffer "z" 0) = none) := by
  have hmem : ∀ (liveFx : String → String → Option ℚ) (cfg : FilterCfg)
      (results : List RawOffer) (o : NormalizedOffer),
      o ∈ collectOffers liveFx cfg results → 0 < o.price := by
    intro liveFx cfg results o ho
    rcases List.mem_filterMap.mp ho with ⟨a, _, ha⟩
    exact processOffer_price_pos ha
  refine ⟨fun _ _ _ _ h => processOffer_price_pos h, hmem, ?_, ?_, by decide!⟩
  · intro liveFx cfg results p hp
    rcases List.mem_map.mp hp with ⟨o, ho, rfl⟩
    exact hmem liveFx cfg results o ho
  · intro searchFn liveFx llm request r hr
    unfold execute_travel_analysis at hr
    cases hsw : cached_search_sweep searchFn request.origin request.destination
        request.departure_date (pyOrStr request.return_date "") request.travelers with
    | none =>
      rw [hsw] at hr
      exact Option.noConfusion hr
    | some results =>
      rw [hsw] at hr
      dsimp only at hr
      injection hr with hr
      subst hr
      dsimp only
      constructor
      · intro x hx
        rcases List.mem_map.mp hx with ⟨y, hy, rfl⟩
        rw [annotate_pros_cons_offer]
        exact hmem _ _ _ y (rank_top_subset hy)
      · intro rec hrec
        exact hmem _ _ _ rec
          (rank_top_subset (List.mem_of_mem_head? (Option.mem_def.mpr hrec)))

/-- C10 (witness): the positivity theorem applied to a concretely processed
offer. -/
theorem C10_witness : 0 < wOffer90.price :=
  C10_positive_prices.1 wNoFx cfgAny (usdOffer "a" 90) wOffer90 (by decide!)

/-- Every pair in the sorted ranking carries the score of its own offer. -/
theorem ranked_fst_eq (target : Option ℚ) (offers : List NormalizedOffer) :
    ∀ p ∈ List.insertionSort (fun a b : ℚ × NormalizedOffer => a.1 ≤ b.1)
      (offers.map (fun o => (offerScore target o, o))), p.1 = offerScore target p.2 := by
  intro p hp
  rw [List.mem_insertionSort] at hp
  rcases List.mem_map.mp hp with ⟨o, _, rfl⟩
  rfl

/-- The scores along the top-ranked list are ascending. -/
theorem rank_top_scores_sorted (target : Option ℚ) (offers : List NormalizedOffer) :
    ((rank_top target offers).map (offerScore target)).Sorted (· ≤ ·) := by
  haveI htot : IsTotal (ℚ × NormalizedOffer) (fun a b => a.1 ≤ b.1) :=
    ⟨fun a b => le_total a.1 b.1⟩
  haveI htr : IsTrans (ℚ × NormalizedOffer) (fun a b => a.1 ≤ b.1) :=
    ⟨fun _ _ _ => le_trans⟩
  unfold rank_top
  dsimp only
  rw [List.map_take, List.map_map]
  have hsorted := List.sorted_insertionSort (fun a b : ℚ × NormalizedOffer => a.1 ≤ b.1)
    (offers.map (fun o => (offerScore target o, o)))
  have hmapeq :
      (List.insertionSort (fun a b : ℚ × NormalizedOffer => a.1 ≤ b.1)
        (offers.map (fun o => (offerScore target o, o)))).map (offerScore target ∘ Prod.snd) =
      (List.insertionSort (fun a b : ℚ × NormalizedOffer => a.1 ≤ b.1)
        (offers.map (fun o => (offerScore target o, o)))).map Prod.fst := by
    apply List.map_congr_left
    intro p hp
    exact (ranked_fst_eq target offers p hp).symm
  rw [hmapeq]
  have hpw : ((List.insertionSort (fun a b : ℚ × NormalizedOffer => a.1 ≤ b.1)
      (offers.map (fun o => (offerScore target o, o)))).map Prod.fst).Pairwise (· ≤ ·) :=
    List.Pairwise.map Prod.fst (fun _ _ hab => hab) hsorted
  exact hpw.sublist (List.take_sublist _ _)

/-- The head of the top-ranked list has minimal score among all offers. -/
theorem rank_top_head_min (target : Option ℚ) (offers : List NormalizedOffer)
    (h : NormalizedOffer) (hh : (rank_top target offers).head? = some h) :
    ∀ o ∈ offers, offerScore target h ≤ offerScore target o := by
  haveI htot : IsTotal (ℚ × NormalizedOffer) (fun a b => a.1 ≤ b.1) :=
    ⟨fun a b => le_total a.1 b.1⟩
  haveI htr : IsTrans (ℚ × NormalizedOffer) (fun a b => a.1 ≤ b.1) :=
    ⟨fun _ _ _ => le_trans⟩
  intro o ho
  unfold rank_top at hh
  dsimp only at hh
  have hsorted := List.sorted_insertionSort (fun a b : ℚ × NormalizedOffer => a.1 ≤ b.1)
    (offers.map (fun o => (offerScore target o, o)))
  have hfst := ranked_fst_eq target offers
  cases hsl : List.insertionSort (fun a b : ℚ × NormalizedOffer => a.1 ≤ b.1)
      (offers.map (fun o => (offerScore target o, o))) with
  | nil => rw [hsl] at hh; exact Option.noConfusion hh
  | cons p rest =>
    rw [hsl] at hh
    simp only [List.map_cons, List.take_succ_cons, List.head?_cons, Option.some.injEq] at hh
    subst hh
    have hpfst : p.1 = offerScore target p.2 := hfst p (by rw [hsl]; exact List.mem_cons_self p rest)
    have hmem : (offerScore target o, o) ∈ List.insertionSort
        (fun a b : ℚ × NormalizedOffer => a.1 ≤ b.1)
        (offers.map (fun o => (offerScore target o, o))) := by
      rw [List.mem_insertionSort]
      exact List.mem_map_of_mem _ ho
    rw [hsl] at hmem
    rcases List.mem_cons.mp hmem with heq | hmem'
    · rw [← heq]
    · rw [hsl] at hsorted
      have := List.rel_of_sorted_cons hsorted _ hmem'
      rw [← hpfst]
      exact this

/-- C3 (counterexample): for normalized prices [90, 100, 110, 200] the median
is 105 (not 100), and the produced top recommendations are priced
[100, 110, 90] in that order, not [100, 90, 110]. -/
theorem C3_counterexample :
    (execute_travel_analysis wSearch4 wNoFx none wRequest).map
        (fun r => (r.summary.map PriceSummary.median,
                   r.top_recommendations.map (fun x => x.offer.price))) =
      some (some 105, [100, 110, 90]) ∧
    (some (105 : ℚ), [(100 : ℚ), 110, 90]) ≠ (some (100 : ℚ), [(100 : ℚ), 90, 110]) := by
  decide!

/-- C3 (amended): offers are scored by `|price − median| + 0.01·price` when a
summary exists (price alone otherwise), the top recommendations are at most 3
offers drawn from the surviving ones with ascending scores and a
minimal-score head; for normalized prices [90, 100, 110, 200] the median is
105 and the top recommendations are priced [100, 110, 90], the recommendation
being the exact-median offer at 100. -/
theorem C3_ranking :
    (∀ (target : Option ℚ) (offers : List NormalizedOffer),
      (rank_top target offers).length ≤ 3 ∧
      (∀ x ∈ rank_top target offers, x ∈ offers) ∧
      ((rank_top target offers).map (offerScore target)).Sorted (· ≤ ·) ∧
      (∀ h, (rank_top target offers).head? = some h →
        ∀ o ∈ offers, offerScore target h ≤ offerScore target o)) ∧
    (execute_travel_analysis wSearch4 wNoFx none wRequest).map
        (fun r => (r.summary.map PriceSummary.median,
                   r.top_recommendations.map (fun x => x.offer.price),
                   r.recommendation.map NormalizedOffer.price)) =
      some (some 105, [100, 110, 90], some 100) := by
  refine ⟨?_, by decide!⟩
  intro target offers
  refine ⟨?_, fun x hx => rank_top_subset hx, rank_top_scores_sorted target offers,
    fun h hh => rank_top_head_min target offers h hh⟩
  unfold rank_top
  dsimp only
  exact le_trans (List.length_take_le _ _) (le_refl _)

/-- C3 (witness): the ranking theorem instantiated on a concrete singleton
offer list, discharging the head hypothesis. -/
theorem C3_witness : offerScore none wOffer90 ≤ offerScore none wOffer90 :=
  (C3_ranking.1 none [wOffer90]).2.2.2 wOffer90 (by decide!) wOffer90 (by simp)

/-- Python `int()` truncation agrees with the floor on non-negative
rationals. -/
theorem pyTrunc_eq_floor {q : ℚ} (hq : 0 ≤ q) : pyTrunc q = ⌊q⌋ := by
  unfold pyTrunc
  rw [Rat.floor_def]
  exact Int.tdiv_eq_ediv (Rat.num_nonneg.mpr hq) (Int.ofNat_nonneg _)

/-- The source's `percentile` agrees with the spec's
floor/ceil-interpolation formula for any percentile in `[0, 100]`. -/
theorem percentile_eq_spec (l : List ℚ) (hl : l ≠ []) (p : ℚ)
    (h0 : 0 ≤ p) (h1 : p ≤ 100) : percentile l p = specPercentile l p := by
  unfold percentile specPercentile
  rw [if_neg hl]
  dsimp only
  have hn1 : 1 ≤ l.length := List.length_pos.mpr hl
  have hn1q : (1 : ℚ) ≤ (l.length : ℚ) := by exact_mod_cast hn1
  have hk_eq : ((l.length : ℚ) - 1) * (p * mkRat 1 100) = ((l.length : ℚ) - 1) * p / 100 := by
    rw [Rat.mkRat_eq_divInt, Rat.divInt_eq_div]
    push_cast
    ring
  rw [hk_eq]
  have hk0 : 0 ≤ ((l.length : ℚ) - 1) * p / 100 := by
    apply div_nonneg _ (by norm_num)
    exact mul_nonneg (by linarith) h0
  have hkn : ((l.length : ℚ) - 1) * p / 100 ≤ (l.length : ℚ) - 1 := by
    calc ((l.length : ℚ) - 1) * p / 100 = ((l.length : ℚ) - 1) * (p / 100) := by ring
    _ ≤ ((l.length : ℚ) - 1) * 1 := by
        apply mul_le_mul_of_nonneg_left _ (by linarith)
        linarith
    _ = (l.length : ℚ) - 1 := mul_one _
  set k : ℚ := ((l.length : ℚ) - 1) * p / 100 with hkdef
  rw [pyTrunc_eq_floor hk0]
  have hfloorcast : (((l.length : ℤ) - 1 : ℤ) : ℚ) = (l.length : ℚ) - 1 := by push_cast; ring
  by_cases hint : (⌊k⌋ : ℤ) = ⌈k⌉
  · have hkf : ((⌊k⌋ : ℤ) : ℚ) = k := by
      have hle := Int.floor_le k
      have hge := Int.le_ceil k
      rw [← hint] at hge
      linarith
    rw [if_pos hint]
    by_cases hc : ⌊k⌋ + 1 ≤ (l.length : ℤ) - 1
    · rw [min_eq_left hc]
      rw [if_neg (by omega)]
      have hfac1 : ((⌊k⌋ + 1 : ℤ) : ℚ) - k = 1 := by push_cast; linarith
      have hfac2 : k - ((⌊k⌋ : ℤ) : ℚ) = 0 := by linarith
      rw [hfac1, hfac2]
      simp
    · have hfle : ⌊k⌋ ≤ (l.length : ℤ) - 1 := by
        have := Int.floor_le_floor hkn
        rwa [← hfloorcast, Int.floor_intCast] at this
      have hfeq : ⌊k⌋ = (l.length : ℤ) - 1 := by omega
      have hmin : min (⌊k⌋ + 1) ((l.length : ℤ) - 1) = ⌊k⌋ := by
        rw [hfeq]; omega
      rw [hmin, if_pos rfl]
  · rw [if_neg hint]
    have hceil : ⌈k⌉ = ⌊k⌋ + 1 := by
      have h1' := Int.floor_le_ceil k
      have h2' := Int.ceil_le_floor_add_one k
      omega
    have hklt : k < (l.length : ℚ) - 1 := by
      rcases lt_or_eq_of_le hkn with h | h
      · exact h
      · exfalso
        apply hint
        rw [h, ← hfloorcast, Int.floor_intCast, Int.ceil_intCast]
    have hflt : ⌊k⌋ < (l.length : ℤ) - 1 := by
      rw [Int.floor_lt]
      rwa [hfloorcast]
    rw [min_eq_left (by omega)]
    rw [if_neg (by omega)]
    rw [hceil]

/-- The source's `statistics.median` embedding agrees with the spec's
standard-median description. -/
theorem median_eq_spec (l : List ℚ) : statistics_median l = specMedian l := by
  unfold statistics_median specMedian
  dsimp only
  rcases Nat.even_or_odd (pySort l).length with he | ho
  · have h2 : 2 ∣ (pySort l).length := he.two_dvd
    have hnot : ¬ (pySort l).length % 2 = 1 := by omega
    rw [if_neg hnot, if_pos h2]
    have : (mkRat 1 2 : ℚ) = 1 / 2 := by
      rw [Rat.mkRat_eq_divInt, Rat.divInt_eq_div]
      norm_num
    rw [this]
    ring
  · have h1 : (pySort l).length % 2 = 1 := Nat.odd_iff.mp ho
    have hnot : ¬ 2 ∣ (pySort l).length := by omega
    rw [if_pos h1, if_neg hnot]

/-- C4: the summary statistics are the standard ones: for the prices
[10, 20, 30, 40] the summary is exactly count 4, min 10, p25 17.5, median 25,
p75 32.5, max 40 (computed through the whole pipeline); the embedded median
agrees with standard median-of-sorted-values semantics on every list; and the
percentile function agrees with linear interpolation between closest ranks at
k = (n−1)·p/100 for every non-empty list and every p in [0, 100]. -/
theorem C4_statistics :
    ((execute_travel_analysis wSearch40 wNoFx none wRequest).map ResultObj.summary =
      some (some { count := 4, min := 10, p25 := mkRat 35 2, median := 25
                 , p75 := mkRat 65 2, max := 40 }) ∧
      mk_summary [10, 20, 30, 40] =
        some { count := 4, min := 10, p25 := mkRat 35 2, median := 25
             , p75 := mkRat 65 2, max := 40 }) ∧
    (∀ l : List ℚ, statistics_median l = specMedian l) ∧
    (∀ (l : List ℚ) (p : ℚ), l ≠ [] → 0 ≤ p → p ≤ 100 →
      percentile l p = specPercentile l p) ∧
    (∀ (prices : List ℚ) (s : PriceSummary), mk_summary prices = some s →
      s.median = specMedian prices ∧
      s.p25 = specPercentile (pySort prices) 25 ∧
      s.p75 = specPercentile (pySort prices) 75) := by
  refine ⟨by decide!, median_eq_spec, fun l p hl h0 h1 => percentile_eq_spec l hl p h0 h1, ?_⟩
  intro prices s hs
  unfold mk_summary at hs
  split at hs
  · exact Option.noConfusion hs
  · injection hs with hs
    subst hs
    have hne : pySort prices ≠ [] := by
      intro hc
      have hlen := congrArg List.length hc
      rw [List.length_nil] at hlen
      have hperm := List.perm_insertionSort (fun a b : ℚ => a ≤ b) prices
      have := hperm.length_eq
      unfold pySort at hlen
      simp_all
    exact ⟨median_eq_spec prices,
      (percentile_eq_spec (pySort prices) hne 25 (by norm_num) (by norm_num)).symm ▸ rfl,
      (percentile_eq_spec (pySort prices) hne 75 (by norm_num) (by norm_num)).symm ▸ rfl⟩

/-- C4 (witness): the percentile/median agreement discharged on the concrete
sorted list [10, 20, 30, 40]. -/
theorem C4_witness :
    percentile [10, 20, 30, 40] 25 = specPercentile [10, 20, 30, 40] 25 :=
  C4_statistics.2.2.1 [10, 20, 30, 40] 25 (by decide) (by norm_num) (by norm_num)

end TravelCost
